import Mathlib

/-!
Shallow embedding of `src/basic_webserver.py` (class `WSGIServer`).

The server holds all per-request state as attributes of one long-lived
object; we model that object as an explicit `ServerState` record threaded
through the per-request operations.  The wall clock (used by
`start_response` via `datetime.datetime.utcnow()`) is an effect, so it is
passed in as an explicit `UtcTime` value.  Socket I/O is modelled by an
event list (`Event`): the serializer's `sendall` and `close` calls are
recorded in order.  Body chunks returned by the WSGI application are
modelled after UTF-8 decoding, as `Except Fault String`, so that a chunk
whose decode raises is representable.
-/

namespace DIYWebServer

/-- Whitespace for Python `str.split()` with no separator argument
(the characters for which `str.isspace` holds). -/
def pyIsSpace (c : Char) : Bool :=
  c = ' ' || c = '\t' || c = '\n' || c = '\x0b' || c = '\x0c' || c = '\r' ||
  (0x1c ≤ c.val && c.val ≤ 0x1f) || c.val = 0x85 || c.val = 0xa0 ||
  c.val = 0x1680 || (0x2000 ≤ c.val && c.val ≤ 0x200a) ||
  c.val = 0x2028 || c.val = 0x2029 || c.val = 0x202f || c.val = 0x205f ||
  c.val = 0x3000

/-- Line boundaries recognised by Python `str.splitlines`
(`\n`, `\r`, `\r\n`, `\v`, `\f`, FS, GS, RS, NEL, LS, PS). -/
def isLineBoundary (c : Char) : Bool :=
  c = '\n' || c = '\r' || c = '\x0b' || c = '\x0c' ||
  (0x1c ≤ c.val && c.val ≤ 0x1e) || c.val = 0x85 ||
  c.val = 0x2028 || c.val = 0x2029

/-- Worker for `pySplitlines`: `acc` holds the (reversed) characters of the
line being accumulated; a `\r\n` pair counts as a single boundary; a
trailing boundary does not open a new empty line. -/
def splitlinesAux : List Char → List Char → List String
  | [], acc => if acc.isEmpty then [] else [String.mk acc.reverse]
  | '\r' :: '\n' :: rest, acc => String.mk acc.reverse :: splitlinesAux rest []
  | c :: rest, acc =>
      if isLineBoundary c then String.mk acc.reverse :: splitlinesAux rest []
      else splitlinesAux rest (c :: acc)

/-- Python `text.splitlines()` (so `pySplitlines "" = []`,
`pySplitlines "a\n" = ["a"]`, `pySplitlines "\n" = [""]`). -/
def pySplitlines (s : String) : List String :=
  splitlinesAux s.toList []

/-- Python `request_line.rstrip('\r\n')`: remove trailing characters drawn
from the two-character strip set. -/
def pyRstripCRLF (s : String) : String :=
  String.mk ((s.toList.reverse.dropWhile (fun c => c = '\r' || c = '\n')).reverse)

/-- Worker for `pySplitWs`: splits on maximal whitespace runs, never
producing empty tokens. -/
def splitWsAux : List Char → List Char → List String
  | [], acc => if acc.isEmpty then [] else [String.mk acc.reverse]
  | c :: rest, acc =>
      if pyIsSpace c then
        if acc.isEmpty then splitWsAux rest []
        else String.mk acc.reverse :: splitWsAux rest []
      else splitWsAux rest (c :: acc)

/-- Python `request_line.split()` (no separator argument). -/
def pySplitWs (s : String) : List String :=
  splitWsAux s.toList []

/-- The faults a request cycle can raise.  `IndexOutOfRange` models the
`IndexError` from `text.splitlines()[0]` on an empty string;
`MalformedRequestLine` the `ValueError` from unpacking `.split()` into
three names; `ResponseStateMissing` the `ValueError` from unpacking the
initial `headers_set = []`; `AttributeMissing` a Python `AttributeError`;
`ChunkDecodeFault` a `UnicodeDecodeError` while decoding a body chunk;
`SendFault` a transport error raised by `sendall`. -/
inductive Fault where
  | IndexOutOfRange
  | MalformedRequestLine
  | ResponseStateMissing
  | AttributeMissing
  | ChunkDecodeFault
  | SendFault
deriving DecidableEq, Repr

/-- The three fields assigned by `parse_request`:
`self.request_method`, `self.path`, `self.request_version`. -/
structure ParsedRequest where
  request_method : String
  path : String
  request_version : String
deriving DecidableEq, Repr

/-- `WSGIServer.parse_request`: take `text.splitlines()[0]` (raising
`IndexError` when the list is empty), strip trailing `\r\n`, split on
whitespace, and unpack into exactly three fields (raising `ValueError` --
the `MalformedRequestLine` condition -- on any other token count). -/
def parse_request (text : String) : Except Fault ParsedRequest :=
  match (pySplitlines text).head? with
  | none => Except.error Fault.IndexOutOfRange
  | some request_line =>
      match pySplitWs (pyRstripCRLF request_line) with
      | [m, p, v] =>
          Except.ok { request_method := m, path := p, request_version := v }
      | _ => Except.error Fault.MalformedRequestLine

/-- Model of `io.StringIO`: an in-memory text stream with a buffer and a
read position. -/
structure StringStream where
  buffer : String
  pos : Nat
deriving DecidableEq, Repr

/-- `io.StringIO(s)`: a fresh stream positioned at the start. -/
def StringStream.new (s : String) : StringStream :=
  { buffer := s, pos := 0 }

/-- `stream.read()` with no size argument: return everything from the
current position to the end and move the position to the end. -/
def StringStream.read (sio : StringStream) : String × StringStream :=
  (String.mk (sio.buffer.toList.drop sio.pos),
   { buffer := sio.buffer, pos := sio.buffer.length })

/-- Reading the stream to exhaustion (one argumentless `read()` already
returns the whole remainder). -/
def StringStream.readAll (sio : StringStream) : String :=
  (StringStream.read sio).1

/-- The values stored in the WSGI environment dictionary: the
`wsgi.version` tuple, strings, the `wsgi.input` stream, the
`wsgi.errors` stream (`sys.stderr`), and booleans. -/
inductive EnvValue where
  | version (a b : Nat)
  | str (s : String)
  | input (sio : StringStream)
  | errors
  | bool (b : Bool)
deriving DecidableEq, Repr

/-- `self.headers_set`: either the initial empty list from `__init__`
(unpacking it in `finish_response` raises `ValueError`), or the
two-element list `[status, headers]` stored by `start_response`. -/
inductive HeadersSet where
  | unset
  | set (status : String) (headers : List (String × String))
deriving DecidableEq, Repr

/-- The mutable attributes of the long-lived `WSGIServer` object.
`server_name` and `server_port` are set once in `__init__`; the
remaining attributes are per-request state stored on the same object
(`none` models a not-yet-assigned Python attribute; `headers_set` starts
as the empty list, modelled as `HeadersSet.unset`). -/
structure ServerState where
  server_name : String
  server_port : Nat
  request_data : Option String
  request_method : Option String
  path : Option String
  request_version : Option String
  headers_set : HeadersSet
deriving DecidableEq, Repr

/-- `WSGIServer.__init__`: records the resolved server name and port and
initialises `headers_set` to the empty list; no per-request attribute
exists yet. -/
def WSGIServer_init (server_name : String) (server_port : Nat) : ServerState :=
  { server_name := server_name, server_port := server_port,
    request_data := none, request_method := none, path := none,
    request_version := none, headers_set := HeadersSet.unset }

/-- `WSGIServer.get_environ`: builds the WSGI environment dictionary from
the attributes stored on the server object, in the source's insertion
order.  Accessing a never-assigned attribute would raise
`AttributeError`, modelled as `none`. -/
def get_environ (st : ServerState) : Option (List (String × EnvValue)) :=
  match st.request_data, st.request_method, st.path with
  | some rd, some rm, some p =>
      some [("wsgi.version", EnvValue.version 1 0),
            ("wsgi.url_scheme", EnvValue.str "http"),
            ("wsgi.input", EnvValue.input (StringStream.new rd)),
            ("wsgi.errors", EnvValue.errors),
            ("wsgi.multithread", EnvValue.bool false),
            ("wsgi.multiprocess", EnvValue.bool false),
            ("wsgi.run_once", EnvValue.bool false),
            ("REQUEST_METHOD", EnvValue.str rm),
            ("PATH_INFO", EnvValue.str p),
            ("SERVER_NAME", EnvValue.str st.server_name),
            ("SERVER_PORT", EnvValue.str (toString st.server_port))]
  | _, _, _ => none

/-- A UTC instant as observed by `datetime.datetime.utcnow()`:
`weekday` is Python's `weekday()` convention (0 = Monday), `month` is
1-based. -/
structure UtcTime where
  weekday : Nat
  day : Nat
  month : Nat
  year : Nat
  hour : Nat
  minute : Nat
  second : Nat
deriving DecidableEq, Repr

/-- Zero-pad a number to two digits (strftime `%d`, `%H`, `%M`, `%S`). -/
def pad2 (n : Nat) : String :=
  if n < 10 then "0" ++ toString n else toString n

/-- Zero-pad a year to four digits (strftime `%Y`). -/
def pad4 (n : Nat) : String :=
  if n < 10 then "000" ++ toString n
  else if n < 100 then "00" ++ toString n
  else if n < 1000 then "0" ++ toString n
  else toString n

/-- strftime `%a` in the C locale, from Python's Monday-based weekday. -/
def weekdayAbbrev (w : Nat) : String :=
  ["Mon", "Tue", "Wed", "Thu", "Fri", "Sat", "Sun"].getD w "Mon"

/-- strftime `%b` in the C locale, for a 1-based month. -/
def monthAbbrev (m : Nat) : String :=
  ["Jan", "Feb", "Mar", "Apr", "May", "Jun",
   "Jul", "Aug", "Sep", "Oct", "Nov", "Dec"].getD (m - 1) "Jan"

/-- `utcnow().strftime('%a, %d %b %Y %H:%M:%S GMT')`: the RFC 1123 date
pattern used for the `Date` header. -/
def strftime_rfc1123 (t : UtcTime) : String :=
  weekdayAbbrev t.weekday ++ ", " ++ pad2 t.day ++ " " ++
  monthAbbrev t.month ++ " " ++ pad4 t.year ++ " " ++
  pad2 t.hour ++ ":" ++ pad2 t.minute ++ ":" ++ pad2 t.second ++ " GMT"

/-- `WSGIServer.start_response`: computes the current date, appends the
two server headers after the application-supplied ones, and stores
`[status, response_headers + server_headers]` in `self.headers_set`.
Note the source's f-string `f'${current_date}'` puts a literal dollar
sign before the formatted date. -/
def start_response (now : UtcTime) (status : String)
    (response_headers : List (String × String)) : HeadersSet :=
  let current_date := strftime_rfc1123 now
  let server_headers : List (String × String) :=
    [("Date", "$" ++ current_date), ("Server", "WSGIServer 0.2")]
  HeadersSet.set status (response_headers ++ server_headers)

/-- Observable socket actions of the serializer, in order:
`sendall` of the encoded response text, and closing the connection. -/
inductive Event where
  | sendAll (data : String)
  | close
deriving DecidableEq, Repr

/-- The header block built by the `for header in response_headers` loop:
each `(name, value)` pair formatted as `name: value\r\n`, in list order. -/
def headerLines : List (String × String) → String
  | [] => ""
  | h :: t => h.1 ++ ": " ++ h.2 ++ "\r\n" ++ headerLines t

/-- The `for data in result` loop: decode each body chunk as UTF-8 and
concatenate, propagating the first decode fault. -/
def decodeChunks : List (Except Fault String) → Except Fault String
  | [] => Except.ok ""
  | c :: cs =>
      match c with
      | Except.error e => Except.error e
      | Except.ok s =>
          match decodeChunks cs with
          | Except.error e => Except.error e
          | Except.ok rest => Except.ok (s ++ rest)

/-- `WSGIServer.finish_response`: inside `try`, unpack `self.headers_set`
(raising `ValueError` when it still holds `__init__`'s empty list --
the `ResponseStateMissing` condition), build the status line, the header
block, a blank line and the decoded body, then `sendall` the encoded
response (which may raise a transport fault, modelled by `sendOk`);
the `finally` block closes the connection on every path. -/
def finish_response (headers_set : HeadersSet)
    (result : List (Except Fault String)) (sendOk : Bool) :
    Except Fault Unit × List Event :=
  let attempt : Except Fault String :=
    match headers_set with
    | HeadersSet.unset => Except.error Fault.ResponseStateMissing
    | HeadersSet.set status response_headers =>
        match decodeChunks result with
        | Except.error e => Except.error e
        | Except.ok body =>
            Except.ok ("HTTP/1.1 " ++ status ++ "\r\n" ++
                       headerLines response_headers ++ "\r\n" ++ body)
  match attempt with
  | Except.error e => (Except.error e, [Event.close])
  | Except.ok response =>
      if sendOk then (Except.ok (), [Event.sendAll response, Event.close])
      else (Except.error Fault.SendFault, [Event.sendAll response, Event.close])

/-- The opaque WSGI application, abstracted by its observable behaviour in
one cycle: the sequence of `start_response(status, headers)` invocations
it performs, and the body chunks it returns (each chunk given by the
outcome of its UTF-8 decode). -/
structure AppBehavior where
  calls : List (String × List (String × String))
  result : List (Except Fault String)
deriving Repr

/-- Replay the application's `start_response` invocations against the
stored `headers_set`: each call overwrites the previous value; zero
calls leave it untouched. -/
def applyCalls (now : UtcTime) (hs : HeadersSet) :
    List (String × List (String × String)) → HeadersSet
  | [] => hs
  | (status, headers) :: rest => applyCalls now (start_response now status headers) rest

/-- What one `handle_one_request` call did: the server state afterwards,
the environment handed to the application (if one was built), whether
the application was invoked, the cycle's outcome, and the socket events
of the serializer. -/
structure CycleResult where
  state : ServerState
  envBuilt : Option (List (String × EnvValue))
  appInvoked : Bool
  outcome : Except Fault Unit
  events : List Event
deriving Repr

/-- `WSGIServer.handle_one_request`: receive and decode the request
(`raw` is the decoded text of the bounded `recv(1024)`), store it in
`self.request_data`, parse the request line (a parse fault propagates:
no environment is built, the application is not invoked, and the
connection is not closed), build the environment, invoke the
application (its `start_response` calls mutate `self.headers_set`), and
serialize via `finish_response`. -/
def handle_one_request (now : UtcTime) (st : ServerState) (raw : String)
    (app : AppBehavior) (sendOk : Bool) : CycleResult :=
  let st1 : ServerState := { st with request_data := some raw }
  match parse_request raw with
  | Except.error e =>
      { state := st1, envBuilt := none, appInvoked := false,
        outcome := Except.error e, events := [] }
  | Except.ok pr =>
      let st2 : ServerState :=
        { st1 with request_method := some pr.request_method,
                   path := some pr.path,
                   request_version := some pr.request_version }
      match get_environ st2 with
      | none =>
          { state := st2, envBuilt := none, appInvoked := false,
            outcome := Except.error Fault.AttributeMissing, events := [] }
      | some env =>
          let st3 : ServerState :=
            { st2 with headers_set := applyCalls now st2.headers_set app.calls }
          let fin := finish_response st3.headers_set app.result sendOk
          { state := st3, envBuilt := some env, appInvoked := true,
            outcome := fin.1, events := fin.2 }

/-- `WSGIServer.serve_forever`, restricted to a finite list of inbound
connections (each given by its decoded request text, the application's
behaviour for that cycle, and whether `sendall` succeeds).  An unhandled
fault propagates out of `handle_one_request` and stops serving. -/
def serve_forever (now : UtcTime) (st : ServerState) :
    List (String × AppBehavior × Bool) → ServerState × List CycleResult
  | [] => (st, [])
  | (raw, app, sendOk) :: rest =>
      let r := handle_one_request now st raw app sendOk
      match r.outcome with
      | Except.error _ => (r.state, [r])
      | Except.ok _ =>
          let next := serve_forever now r.state rest
          (next.1, r :: next.2)

/-- A sample UTC instant: Tuesday, 1 January 2019, 00:00:00
(the `"Tue, 01 Jan 2019 00:00:00 GMT"` pattern date). -/
def t2019 : UtcTime :=
  { weekday := 1, day := 1, month := 1, year := 2019,
    hour := 0, minute := 0, second := 0 }

/-- Claim C1: for every raw request text with a first line, if that line
splits on whitespace into exactly three tokens then `parse_request`
returns exactly those tokens as method, path and version (the line is
first stripped of trailing carriage-return/newline), and for any other
token count it fails with the `MalformedRequestLine` condition. -/
theorem C1_parse_request_tokens (text line : String)
    (hline : (pySplitlines text).head? = some line) (m p v : String) :
    (pySplitWs (pyRstripCRLF line) = [m, p, v] →
      parse_request text = Except.ok ⟨m, p, v⟩) ∧
    ((pySplitWs (pyRstripCRLF line)).length ≠ 3 →
      parse_request text = Except.error Fault.MalformedRequestLine) := by
  constructor
  · intro htok
    simp only [parse_request, hline, htok]
  · intro hlen
    rcases h3 : pySplitWs (pyRstripCRLF line) with _ | ⟨a, _ | ⟨b, _ | ⟨c, _ | ⟨d, t⟩⟩⟩⟩ <;>
      simp only [parse_request, hline, h3]
    · exact absurd (by simp [h3]) hlen

/-- Witness for C1 at the spec's end-to-end scenario request. -/
theorem C1_witness :
    parse_request "GET /hello HTTP/1.1\r\nHost: x\r\n\r\n"
      = Except.ok ⟨"GET", "/hello", "HTTP/1.1"⟩ :=
  (C1_parse_request_tokens "GET /hello HTTP/1.1\r\nHost: x\r\n\r\n"
    "GET /hello HTTP/1.1" rfl "GET" "/hello" "HTTP/1.1").1 rfl

/-- Claim C10: on the empty raw request text, `parse_request` faults with
the out-of-range access from `text.splitlines()[0]` (a fault distinct
from `MalformedRequestLine`, raised before any whitespace splitting),
and a cycle fed the empty text propagates that same fault. -/
theorem C10_empty_request_index_fault :
    parse_request "" = Except.error Fault.IndexOutOfRange ∧
    Fault.IndexOutOfRange ≠ Fault.MalformedRequestLine ∧
    (handle_one_request t2019 (WSGIServer_init "localhost" 8888) ""
        (AppBehavior.mk [] []) true).outcome
      = Except.error Fault.IndexOutOfRange :=
  ⟨rfl, by decide, rfl⟩

/-- Claim C2 (code bug): the source's `f'${current_date}'` puts a literal
dollar sign before the RFC 1123 date, so in the spec's end-to-end
scenario the serialized response carries `Date: $Tue, 01 Jan 2019
00:00:00 GMT` rather than the bare RFC 1123 value; the emitted value is
never the formatted date itself. -/
theorem C2_date_header_artifact :
    strftime_rfc1123 t2019 = "Tue, 01 Jan 2019 00:00:00 GMT" ∧
    finish_response
        (start_response t2019 "200 OK" [("Content-Type", "text/plain")])
        [Except.ok "hi"] true
      = (Except.ok (),
         [Event.sendAll
            ("HTTP/1.1 200 OK\r\nContent-Type: text/plain\r\nDate: $Tue, 01 Jan 2019 00:00:00 GMT\r\nServer: WSGIServer 0.2\r\n\r\nhi"),
          Event.close]) ∧
    ("$" ++ strftime_rfc1123 t2019) ≠ strftime_rfc1123 t2019 :=
  ⟨rfl, rfl, by decide⟩

/-- Claim C3: once the serializer starts (reading the Response State is
its first step, inside `try`), the connection is closed exactly once,
whether it succeeds, finds the Response State missing, hits a chunk
decode fault, or `sendall` fails. -/
theorem C3_connection_closed_exactly_once (headers_set : HeadersSet)
    (result : List (Except Fault String)) (sendOk : Bool) :
    ((finish_response headers_set result sendOk).2.count Event.close) = 1 := by
  unfold finish_response
  cases headers_set with
  | unset => rfl
  | set status response_headers =>
      cases hdc : decodeChunks result with
      | error e => simp [hdc]
      | ok body => cases sendOk <;> simp [hdc, List.count_cons]

/-- Counterexample to claim C4: in a concrete two-cycle run whose second
application never invokes `start_response`, the second cycle's
serialization succeeds (outcome `ok`) using the Response State left over
from the first cycle, instead of failing with `ResponseStateMissing`. -/
theorem C4_counterexample :
    ((serve_forever t2019 (WSGIServer_init "localhost" 8888)
        [("GET /a HTTP/1.1\r\n\r\n",
          AppBehavior.mk [("200 OK", [("Content-Type", "text/plain")])]
            [Except.ok "hi"], true),
         ("GET /b HTTP/1.1\r\n\r\n",
          AppBehavior.mk [] [Except.ok "bye"], true)]).2.map
        (fun r => (r.appInvoked, r.outcome, r.state.headers_set)))
    = [(true, Except.ok (),
        HeadersSet.set "200 OK"
          [("Content-Type", "text/plain"),
           ("Date", "$Tue, 01 Jan 2019 00:00:00 GMT"),
           ("Server", "WSGIServer 0.2")]),
       (true, Except.ok (),
        HeadersSet.set "200 OK"
          [("Content-Type", "text/plain"),
           ("Date", "$Tue, 01 Jan 2019 00:00:00 GMT"),
           ("Server", "WSGIServer 0.2")])] := rfl

/-- Claim C4 as amended: a cycle whose application never invokes
`start_response` fails with `ResponseStateMissing` provided the stored
Response State is still its initial unset value, i.e. no earlier cycle's
application has invoked the callback (in particular on a fresh server). -/
theorem C4_amended_unset_state_fails (now : UtcTime) (st : ServerState)
    (raw : String) (app : AppBehavior) (sendOk : Bool) (pr : ParsedRequest)
    (hunset : st.headers_set = HeadersSet.unset)
    (hnocalls : app.calls = [])
    (hparse : parse_request raw = Except.ok pr) :
    (handle_one_request now st raw app sendOk).outcome
      = Except.error Fault.ResponseStateMissing := by
  simp [handle_one_request, hparse, get_environ, hnocalls, applyCalls,
        hunset, finish_response]

/-- Witness for the amended C4 on a fresh server. -/
theorem C4_amended_witness :
    (handle_one_request t2019 (WSGIServer_init "localhost" 8888)
        "GET / HTTP/1.1\r\n\r\n" (AppBehavior.mk [] [Except.ok "hi"])
        true).outcome
      = Except.error Fault.ResponseStateMissing :=
  C4_amended_unset_state_fails t2019 (WSGIServer_init "localhost" 8888)
    "GET / HTTP/1.1\r\n\r\n" (AppBehavior.mk [] [Except.ok "hi"]) true
    ⟨"GET", "/", "HTTP/1.1"⟩ rfl rfl rfl

/-- Counterexample to claim C5: two two-cycle runs whose second cycles have
identical inputs (same request text, same application behaviour, same
clock) but whose first cycles pass different statuses to
`start_response` produce different second-cycle socket output -- the
second cycle serializes the first cycle's persisted Response State, so a
per-request entity of the earlier cycle is observable in the later one. -/
theorem C5_counterexample :
    (((serve_forever t2019 (WSGIServer_init "localhost" 8888)
        [("GET /a HTTP/1.1\r\n\r\n",
          AppBehavior.mk [("200 OK", [])] [Except.ok "hi"], true),
         ("GET /b HTTP/1.1\r\n\r\n",
          AppBehavior.mk [] [Except.ok "bye"], true)]).2.map
        (fun r => r.events)).drop 1
      = [[Event.sendAll
            "HTTP/1.1 200 OK\r\nDate: $Tue, 01 Jan 2019 00:00:00 GMT\r\nServer: WSGIServer 0.2\r\n\r\nbye",
          Event.close]]) ∧
    (((serve_forever t2019 (WSGIServer_init "localhost" 8888)
        [("GET /a HTTP/1.1\r\n\r\n",
          AppBehavior.mk [("404 Not Found", [])] [Except.ok "hi"], true),
         ("GET /b HTTP/1.1\r\n\r\n",
          AppBehavior.mk [] [Except.ok "bye"], true)]).2.map
        (fun r => r.events)).drop 1
      = [[Event.sendAll
            "HTTP/1.1 404 Not Found\r\nDate: $Tue, 01 Jan 2019 00:00:00 GMT\r\nServer: WSGIServer 0.2\r\n\r\nbye",
          Event.close]]) :=
  ⟨rfl, rfl⟩

/-- Claim C5 as amended: raw text, parsed fields and environment are
overwritten at the start of each cycle before being read, so a cycle
whose application invokes `start_response` at least once is observably
independent of all per-request state left by earlier cycles (only the
startup server identity matters); Response State alone persists, and is
read by the serializer when the application makes no call. -/
theorem C5_amended_cycle_independence (now : UtcTime) (st st' : ServerState)
    (raw : String) (app : AppBehavior) (sendOk : Bool)
    (hname : st.server_name = st'.server_name)
    (hport : st.server_port = st'.server_port)
    (hcalls : app.calls ≠ []) :
    (handle_one_request now st raw app sendOk).outcome
      = (handle_one_request now st' raw app sendOk).outcome ∧
    (handle_one_request now st raw app sendOk).events
      = (handle_one_request now st' raw app sendOk).events ∧
    (handle_one_request now st raw app sendOk).envBuilt
      = (handle_one_request now st' raw app sendOk).envBuilt := by
  obtain ⟨c, rest, hc⟩ := List.exists_cons_of_ne_nil hcalls
  cases hp : parse_request raw with
  | error e => simp [handle_one_request, hp]
  | ok pr =>
      simp [handle_one_request, hp, get_environ, hc, applyCalls,
            hname, hport]

/-- Witness for the amended C5: a fresh server and a server carrying junk
per-request state from an earlier cycle behave identically when the
application invokes `start_response`. -/
theorem C5_amended_witness :
    ((handle_one_request t2019 (WSGIServer_init "localhost" 8888)
        "GET /hello HTTP/1.1\r\n\r\n"
        (AppBehavior.mk [("200 OK", [])] [Except.ok "hi"]) true).outcome
      = (handle_one_request t2019
          { server_name := "localhost", server_port := 8888,
            request_data := some "OLD", request_method := some "POST",
            path := some "/old", request_version := some "HTTP/0.9",
            headers_set := HeadersSet.set "500 ERR" [("X", "y")] }
          "GET /hello HTTP/1.1\r\n\r\n"
          (AppBehavior.mk [("200 OK", [])] [Except.ok "hi"]) true).outcome) ∧
    ((handle_one_request t2019 (WSGIServer_init "localhost" 8888)
        "GET /hello HTTP/1.1\r\n\r\n"
        (AppBehavior.mk [("200 OK", [])] [Except.ok "hi"]) true).events
      = (handle_one_request t2019
          { server_name := "localhost", server_port := 8888,
            request_data := some "OLD", request_method := some "POST",
            path := some "/old", request_version := some "HTTP/0.9",
            headers_set := HeadersSet.set "500 ERR" [("X", "y")] }
          "GET /hello HTTP/1.1\r\n\r\n"
          (AppBehavior.mk [("200 OK", [])] [Except.ok "hi"]) true).events) ∧
    ((handle_one_request t2019 (WSGIServer_init "localhost" 8888)
        "GET /hello HTTP/1.1\r\n\r\n"
        (AppBehavior.mk [("200 OK", [])] [Except.ok "hi"]) true).envBuilt
      = (handle_one_request t2019
          { server_name := "localhost", server_port := 8888,
            request_data := some "OLD", request_method := some "POST",
            path := some "/old", request_version := some "HTTP/0.9",
            headers_set := HeadersSet.set "500 ERR" [("X", "y")] }
          "GET /hello HTTP/1.1\r\n\r\n"
          (AppBehavior.mk [("200 OK", [])] [Except.ok "hi"]) true).envBuilt) :=
  C5_amended_cycle_independence t2019 (WSGIServer_init "localhost" 8888)
    { server_name := "localhost", server_port := 8888,
      request_data := some "OLD", request_method := some "POST",
      path := some "/old", request_version := some "HTTP/0.9",
      headers_set := HeadersSet.set "500 ERR" [("X", "y")] }
    "GET /hello HTTP/1.1\r\n\r\n"
    (AppBehavior.mk [("200 OK", [])] [Except.ok "hi"]) true rfl rfl
    (List.cons_ne_nil _ _)

/-- Claim C6: for every status and every (possibly empty) application
header list, `start_response` stores the application headers first
followed by exactly the two server headers `Date` then `Server` (no
deduplication or overriding: the append keeps every pair), and the
serializer emits the header block of exactly that list, in order,
between the status line and the blank line. -/
theorem C6_header_order (now : UtcTime) (status : String)
    (response_headers : List (String × String)) (body : String) :
    start_response now status response_headers
      = HeadersSet.set status (response_headers ++
          [("Date", "$" ++ strftime_rfc1123 now),
           ("Server", "WSGIServer 0.2")]) ∧
    finish_response (start_response now status response_headers)
        [Except.ok body] true
      = (Except.ok (),
         [Event.sendAll ("HTTP/1.1 " ++ status ++ "\r\n" ++
            headerLines (response_headers ++
              [("Date", "$" ++ strftime_rfc1123 now),
               ("Server", "WSGIServer 0.2")]) ++
            "\r\n" ++ body),
          Event.close]) := by
  refine ⟨rfl, ?_⟩
  simp [finish_response, start_response, decodeChunks, String.append_empty]

/-- Claim C7: `get_environ` over a server whose per-request attributes
hold a parsed request and its raw text yields exactly the eleven
specified entries, in order: the WSGI version tuple `(1, 0)`, scheme
`"http"`, an input stream over the raw text, the process error stream,
the three `false` flags, the parsed method and path, and the server
name and stringified port; being a pure function of these inputs, it is
deterministic. -/
theorem C7_environment_contents (pr : ParsedRequest) (server_name : String)
    (server_port : Nat) (raw : String) (hs : HeadersSet) :
    get_environ
        { server_name := server_name, server_port := server_port,
          request_data := some raw,
          request_method := some pr.request_method,
          path := some pr.path,
          request_version := some pr.request_version,
          headers_set := hs }
      = some [("wsgi.version", EnvValue.version 1 0),
              ("wsgi.url_scheme", EnvValue.str "http"),
              ("wsgi.input", EnvValue.input (StringStream.new raw)),
              ("wsgi.errors", EnvValue.errors),
              ("wsgi.multithread", EnvValue.bool false),
              ("wsgi.multiprocess", EnvValue.bool false),
              ("wsgi.run_once", EnvValue.bool false),
              ("REQUEST_METHOD", EnvValue.str pr.request_method),
              ("PATH_INFO", EnvValue.str pr.path),
              ("SERVER_NAME", EnvValue.str server_name),
              ("SERVER_PORT", EnvValue.str (toString server_port))] := rfl

/-- Claim C8: a cycle whose request's first line holds a single whitespace
token fails with `MalformedRequestLine` during parsing, builds no
environment, and never invokes the application. -/
theorem C8_single_token_no_invocation (now : UtcTime) (st : ServerState)
    (raw line : String) (app : AppBehavior) (sendOk : Bool)
    (hline : (pySplitlines raw).head? = some line)
    (htok : (pySplitWs (pyRstripCRLF line)).length = 1) :
    (handle_one_request now st raw app sendOk).outcome
        = Except.error Fault.MalformedRequestLine ∧
    (handle_one_request now st raw app sendOk).envBuilt = none ∧
    (handle_one_request now st raw app sendOk).appInvoked = false := by
  obtain ⟨a, ha⟩ := List.length_eq_one.mp htok
  have hparse : parse_request raw = Except.error Fault.MalformedRequestLine := by
    simp only [parse_request, hline, ha]
  simp [handle_one_request, hparse]

/-- Witness for C8 at the spec's `"BADLINE"` scenario. -/
theorem C8_witness :
    (handle_one_request t2019 (WSGIServer_init "localhost" 8888) "BADLINE"
        (AppBehavior.mk [("200 OK", [])] [Except.ok "hi"]) true).outcome
      = Except.error Fault.MalformedRequestLine ∧
    (handle_one_request t2019 (WSGIServer_init "localhost" 8888) "BADLINE"
        (AppBehavior.mk [("200 OK", [])] [Except.ok "hi"]) true).envBuilt
      = none ∧
    (handle_one_request t2019 (WSGIServer_init "localhost" 8888) "BADLINE"
        (AppBehavior.mk [("200 OK", [])] [Except.ok "hi"]) true).appInvoked
      = false :=
  C8_single_token_no_invocation t2019 (WSGIServer_init "localhost" 8888)
    "BADLINE" "BADLINE" (AppBehavior.mk [("200 OK", [])] [Except.ok "hi"])
    true rfl rfl

/-- Claim C9: in every cycle that reaches the environment builder, the raw
decoded request text is retained in `request_data`, the environment's
`wsgi.input` entry is a fresh stream over exactly that text, and reading
the stream to exhaustion yields the text back (round trip). -/
theorem C9_input_stream_roundtrip (now : UtcTime) (st : ServerState)
    (raw : String) (app : AppBehavior) (sendOk : Bool) (pr : ParsedRequest)
    (hparse : parse_request raw = Except.ok pr) :
    (handle_one_request now st raw app sendOk).state.request_data
        = some raw ∧
    ((handle_one_request now st raw app sendOk).envBuilt.bind
        (fun env => env.lookup "wsgi.input"))
      = some (EnvValue.input (StringStream.new raw)) ∧
    StringStream.readAll (StringStream.new raw) = raw := by
  refine ⟨?_, ?_, rfl⟩ <;>
    simp [handle_one_request, hparse, get_environ, List.lookup]

/-- Witness for C9 at the spec's end-to-end scenario request. -/
theorem C9_witness :
    (handle_one_request t2019 (WSGIServer_init "localhost" 8888)
        "GET /hello HTTP/1.1\r\nHost: x\r\n\r\n"
        (AppBehavior.mk [("200 OK", [])] [Except.ok "hi"])
        true).state.request_data
      = some "GET /hello HTTP/1.1\r\nHost: x\r\n\r\n" ∧
    ((handle_one_request t2019 (WSGIServer_init "localhost" 8888)
        "GET /hello HTTP/1.1\r\nHost: x\r\n\r\n"
        (AppBehavior.mk [("200 OK", [])] [Except.ok "hi"])
        true).envBuilt.bind (fun env => env.lookup "wsgi.input"))
      = some (EnvValue.input
          (StringStream.new "GET /hello HTTP/1.1\r\nHost: x\r\n\r\n")) ∧
    StringStream.readAll
        (StringStream.new "GET /hello HTTP/1.1\r\nHost: x\r\n\r\n")
      = "GET /hello HTTP/1.1\r\nHost: x\r\n\r\n" :=
  C9_input_stream_roundtrip t2019 (WSGIServer_init "localhost" 8888)
    "GET /hello HTTP/1.1\r\nHost: x\r\n\r\n"
    (AppBehavior.mk [("200 OK", [])] [Except.ok "hi"]) true
    ⟨"GET", "/hello", "HTTP/1.1"⟩ rfl

end DIYWebServer
